import Mathlib

/-!
# Verification of the graph-node GraphQL subscription execution pipeline

Shallow embedding of src/graphql/src/subscription/mod.rs.

Modelling conventions:
* Opaque GraphQL atoms (schema documents, object types, fields, selection
  sets, raw query text) are represented as strings; the pipeline never
  inspects them, it only passes them to injected capabilities.
* The opaque collaborator modules that the file calls into
  (crate::execution::Query::new, sast::get_root_subscription_type,
  collect_fields, coerce_argument_values, execute_selection_set) are
  bundled into a record of function parameters, so theorems quantify over
  every possible behaviour of those collaborators.
* Streams (StoreEventStreamBox, the response stream) are modelled as the
  finite list of items an observer sees; the futures combinator
  trigger_stream.chain(source).then(f) becomes a sequential recursion over
  that list, which is faithful because then polls each produced future to
  completion before requesting the next stream item.
* Instant::now() is modelled by a clock capability indexed by the position
  of the event in the combined stream (processing is sequential, so the
  position determines the instant of that execution).  The same index
  feeds execute_selection_set, whose real result depends on the ambient
  store state at execution time.
* tokio 0.2's Semaphore::acquire is an async fn: calling it constructs a
  future and takes no permit until that future is awaited.  The semaphore
  is passed through the pipeline as explicit state so that permit
  accounting is observable.
-/

namespace GraphQL

/-- Unknown-content GraphQL names (field names, argument names). -/
abbrev Name := String

/-- Opaque schema document (ctx.query.schema.document in the source). -/
abbrev SchemaDocument := String

/-- Opaque schema object type (s::ObjectType in the source). -/
abbrev ObjectType := String

/-- Opaque query field (q::Field in the source). -/
abbrev GqlField := String

/-- Opaque selection set (ctx.query.selection_set in the source). -/
abbrev SelectionSet := String

/-- Opaque raw query document text (subscription.query in the source). -/
abbrev RawQuery := String

/-- Coerced argument values, HashMap of name to value in the source. -/
abbrev ArgumentValues := List (Name × String)

/-- The query-execution error taxonomy; only the variants the subscription
module constructs are distinguished, every other variant produced by the
opaque collaborators is collapsed into Other. -/
inductive QueryExecutionError where
  | NotSupported (msg : String)
  | NoRootSubscriptionObjectType
  | EmptyQuery
  | MultipleSubscriptionFields
  | EventStreamError
  | Panic (msg : String)
  | Other (msg : String)
deriving DecidableEq, Repr

/-- Setup-time subscription error.  Its Rust definition lives outside the
excerpt; the module only ever builds it through the From conversions from
a QueryExecutionError (singleton list) and from a list of them, so it is
modelled as that single wrapping constructor. -/
inductive SubscriptionError where
  | GraphQLError (errs : List QueryExecutionError)
deriving DecidableEq, Repr

/-- A store change notification: an integer tag and a set of entity
changes (modelled as the list of change identifiers). -/
structure StoreEvent where
  tag : Nat
  changes : List String
deriving DecidableEq, Repr

/-- The per-event result: data and a list of execution errors, matching
the two constructions QueryResult::new(Some(value)) and
QueryResult::from(errors) used by the module. -/
structure QueryResult (α : Type) where
  data : Option α
  errors : List QueryExecutionError
deriving DecidableEq, Repr

/-- QueryResult::new(Some(value)). -/
def QueryResult.ofData {α : Type} (v : α) : QueryResult α :=
  { data := some v, errors := [] }

/-- QueryResult::from(errs) for a list of execution errors. -/
def QueryResult.ofErrors {α : Type} (es : List QueryExecutionError) : QueryResult α :=
  { data := none, errors := es }

/-- QueryResult::from(e), the From conversion of one QueryExecutionError. -/
def QueryResult.ofError {α : Type} (e : QueryExecutionError) : QueryResult α :=
  { data := none, errors := [e] }

/-- SubscriptionError::from(e : QueryExecutionError). -/
def SubscriptionError.ofError (e : QueryExecutionError) : SubscriptionError :=
  SubscriptionError.GraphQLError [e]

/-- A compiled query (crate::execution::Query).  Only the projections the
subscription module uses are modelled: schema.document, selection_set and
is_subscription(). -/
structure CompiledSchema where
  document : SchemaDocument
deriving DecidableEq, Repr

structure Query where
  schema : CompiledSchema
  selection_set : SelectionSet
  isSubscription : Bool
deriving DecidableEq, Repr

/-- The source stream StoreEventStreamBox: the sequence of items the
stream yields, each either an event or the futures 0.1 error signal
(error type unit in the source). -/
abbrev SourceStream := List (Except Unit StoreEvent)

/-- The injected resolver capability; the module only uses its
resolve_field_stream method. -/
structure Resolver where
  resolve_field_stream :
    SchemaDocument → ObjectType → GqlField → Except QueryExecutionError SourceStream

/-- ExecutionMode of the execution crate; subscriptions always use
Prefetch. -/
inductive ExecutionMode where
  | Prefetch
  | Verify
deriving DecidableEq, Repr

/-- BlockNumber::max_value(), the "latest block" ceiling (i32::MAX). -/
def BLOCK_NUMBER_MAX : Nat := 2147483647

/-- The execution context, with exactly the fields constructed in the
source (the logger carries no information relevant to verification). -/
structure ExecutionContext where
  logger : Unit
  resolver : Resolver
  query : Query
  fields : List Name
  deadline : Option Nat
  max_first : Nat
  block : Nat
  mode : ExecutionMode

/-- Outcome of running execute_selection_set on the blocking worker:
either the worker panicked (JoinError from spawn_blocking_allow_panic,
carrying the panic message), or the call returned Ok(value), or it
returned Err(errors). -/
inductive ExecOutcome (α : Type) where
  | panicked (msg : String)
  | ok (v : α)
  | errs (es : List QueryExecutionError)
deriving DecidableEq, Repr

/-- The opaque collaborator modules the subscription file calls into,
bundled as capabilities.  The Nat argument of execute_selection_set and
of now is the position of the event in the combined
(synthetic-trigger :: real-events) stream: processing is sequential, so
that position determines the wall-clock instant and ambient store state
of the corresponding execution. -/
structure Collab (α : Type) where
  query_new : RawQuery → Option Nat → Nat → Except SubscriptionError Query
  get_root_subscription_type : SchemaDocument → Option ObjectType
  collect_fields : Query → ObjectType → SelectionSet → List (Name × List GqlField)
  coerce_argument_values :
    Query → ObjectType → GqlField → Except (List QueryExecutionError) ArgumentValues
  execute_selection_set : Nat → ExecutionContext → SelectionSet → ObjectType → ExecOutcome α
  now : Nat → Nat

/-- State of the global SUBSCRIPTION_QUERY_SEMAPHORE: the number of
currently available permits. -/
structure SubscriptionSemaphore where
  permits : Nat
deriving DecidableEq, Repr

/-- Capacity of the global semaphore:
Semaphore::new((0.7 * db_conn_pool_size as f64).ceil() as usize).
Embedded as the exact rational ceiling of 7n/10.  The binary64
computation agrees with this for every realistic pool size; in
particular 0.7f64 * 10.0 is a round-to-nearest-even tie that resolves to
exactly 7.0, which the C4 theorem below establishes against an exact
model of the binary64 grid. -/
def subscription_query_semaphore_permits (db_conn_pool_size : Nat) : Nat :=
  (7 * db_conn_pool_size + 9) / 10

/-- The global semaphore as initialised at first use, as a function of
the STORE_CONNECTION_POOL_SIZE configuration value (default 10). -/
def subscription_query_semaphore (db_conn_pool_size : Nat) : SubscriptionSemaphore :=
  { permits := subscription_query_semaphore_permits db_conn_pool_size }

/-- The exact rational value of the IEEE-754 binary64 literal 0.7,
namely 3152519739159347 / 2^52. -/
def f64_0_7 : ℚ := 3152519739159347 / 2 ^ 52

/-- Round x to the nearest multiple of the grid spacing u, ties to the
even multiple: the rounding binary64 multiplication applies on the grid
of representable values of spacing u. -/
def roundGrid (u x : ℚ) : ℚ :=
  if x - ⌊x / u⌋ * u < (⌊x / u⌋ + 1) * u - x then ⌊x / u⌋ * u
  else if (⌊x / u⌋ + 1) * u - x < x - ⌊x / u⌋ * u then (⌊x / u⌋ + 1) * u
  else if ⌊x / u⌋ % 2 = 0 then ⌊x / u⌋ * u else (⌊x / u⌋ + 1) * u

/-- The future returned by tokio 0.2's async fn Semaphore::acquire.
Constructing it performs no semaphore transition; a permit would only be
taken when the future is awaited, which the code under verification
never does. -/
structure SemaphoreAcquireFuture where
  target : SubscriptionSemaphore

/-- SUBSCRIPTION_QUERY_SEMAPHORE.acquire(): builds the future, changes
no state. -/
def SubscriptionSemaphore.acquire (s : SubscriptionSemaphore) : SemaphoreAcquireFuture :=
  { target := s }

/-- Options available for subscription execution. -/
structure SubscriptionExecutionOptions where
  logger : Unit
  resolver : Resolver
  timeout : Option Nat
  max_complexity : Option Nat
  max_depth : Nat
  max_first : Nat

/-- A subscription request: the raw query document. -/
structure Subscription where
  query : RawQuery
deriving DecidableEq, Repr

/-- The fresh per-event execution context built inside
execute_subscription_event: deadline is now + timeout when a timeout is
configured (timeout.map(|t| Instant::now() + t)), none otherwise, and
the block ceiling is BLOCK_NUMBER_MAX. -/
def subscription_event_context (now : Nat) (resolver : Resolver) (query : Query)
    (timeout : Option Nat) (max_first : Nat) : ExecutionContext :=
  { logger := ()
    resolver := resolver
    query := query
    fields := []
    deadline := timeout.map (fun t => now + t)
    max_first := max_first
    block := BLOCK_NUMBER_MAX
    mode := ExecutionMode.Prefetch }

/-- The .map_err(|e| vec![Panic(e.to_string())]).and_then(|x| x) chain
applied to the outcome of spawn_blocking_allow_panic. -/
def joinBlockingResult {α : Type} (o : ExecOutcome α) :
    Except (List QueryExecutionError) α :=
  match o with
  | ExecOutcome.panicked msg => Except.error [QueryExecutionError.Panic msg]
  | ExecOutcome.ok v => Except.ok v
  | ExecOutcome.errs es => Except.error es

/-- execute_subscription_event.  The event itself is only logged by the
source, not passed to execution (each event triggers a full
re-execution against current store state).  The semaphore is threaded
as explicit state: the source binds the unawaited acquire future to
_permit, so the state passes through unchanged and the execution holds
no permit. -/
def execute_subscription_event {α : Type} (collab : Collab α) (step : Nat)
    (resolver : Resolver) (query : Query) (_event : StoreEvent)
    (timeout : Option Nat) (max_first : Nat) (sem : SubscriptionSemaphore) :
    QueryResult α × SubscriptionSemaphore :=
  let ctx := subscription_event_context (collab.now step) resolver query timeout max_first
  let subscription_type := (collab.get_root_subscription_type ctx.query.schema.document).get!
  let _permit := sem.acquire
  let result := joinBlockingResult
    (collab.execute_selection_set step ctx ctx.query.selection_set subscription_type)
  ((match result with
    | Except.ok value => QueryResult.ofData value
    | Except.error e => QueryResult.ofErrors e), sem)

/-- The synthetic trigger event prepended in front of the real events:
tag 0 and an empty (Default::default()) change set. -/
def trigger_event : StoreEvent :=
  { tag := 0, changes := [] }

/-- The .then combinator of map_source_to_response_stream applied
sequentially over the combined stream items: an error signal becomes a
ready QueryResult carrying EventStreamError, an event is executed via
execute_subscription_event.  step is the position in the combined
stream, sem the threaded semaphore state. -/
def map_events {α : Type} (collab : Collab α) (resolver : Resolver) (query : Query)
    (timeout : Option Nat) (max_first : Nat) :
    Nat → SubscriptionSemaphore → SourceStream →
    List (QueryResult α) × SubscriptionSemaphore
  | _step, sem, [] => ([], sem)
  | step, sem, Except.error () :: rest =>
    let tail := map_events collab resolver query timeout max_first (step + 1) sem rest
    (QueryResult.ofError QueryExecutionError.EventStreamError :: tail.1, tail.2)
  | step, sem, Except.ok event :: rest =>
    let head := execute_subscription_event collab step resolver query event timeout max_first sem
    let tail := map_events collab resolver query timeout max_first (step + 1) head.2 rest
    (head.1 :: tail.1, tail.2)

/-- map_source_to_response_stream: clone logger, resolver, query and
max_first out of ctx, prepend the single synthetic trigger event to the
source stream, then map every item through the per-event handler. -/
def map_source_to_response_stream {α : Type} (collab : Collab α)
    (ctx : ExecutionContext) (source_stream : SourceStream) (timeout : Option Nat)
    (sem : SubscriptionSemaphore) : List (QueryResult α) × SubscriptionSemaphore :=
  let resolver := ctx.resolver
  let query := ctx.query
  let max_first := ctx.max_first
  let trigger_stream : SourceStream := [Except.ok trigger_event]
  map_events collab resolver query timeout max_first 0 sem
    (trigger_stream ++ source_stream)

/-- resolve_field_stream: delegate to the resolver capability with the
schema document, object type and field; the coerced argument values are
received but not used.  Errors are mapped through
SubscriptionError::from. -/
def resolve_field_stream {α : Type} (_collab : Collab α) (ctx : ExecutionContext)
    (object_type : ObjectType) (field : GqlField)
    (_argument_values : ArgumentValues) : Except SubscriptionError SourceStream :=
  match ctx.resolver.resolve_field_stream ctx.query.schema.document object_type field with
  | Except.ok s => Except.ok s
  | Except.error e => Except.error (SubscriptionError.ofError e)

/-- create_source_event_stream: locate the root subscription type,
collect the grouped top-level field set, enforce the
empty/multiple-field policy, coerce the single field's arguments
(propagating failure as a setup-time SubscriptionError via the question
mark operator) and delegate to resolve_field_stream.  The source indexes
get_index(0).unwrap() and fields.1[0]; the grouped set produced by
collect_fields always has nonempty groups, so the headD defaults are
never exercised on the paths the theorems use. -/
def create_source_event_stream {α : Type} (collab : Collab α)
    (ctx : ExecutionContext) : Except SubscriptionError SourceStream :=
  match collab.get_root_subscription_type ctx.query.schema.document with
  | none =>
    Except.error (SubscriptionError.ofError QueryExecutionError.NoRootSubscriptionObjectType)
  | some subscription_type =>
    let grouped_field_set :=
      collab.collect_fields ctx.query subscription_type ctx.query.selection_set
    if grouped_field_set.isEmpty then
      Except.error (SubscriptionError.ofError QueryExecutionError.EmptyQuery)
    else if grouped_field_set.length > 1 then
      Except.error (SubscriptionError.ofError QueryExecutionError.MultipleSubscriptionFields)
    else
      let fields := grouped_field_set.headD ("", [])
      let field := fields.2.headD ""
      match collab.coerce_argument_values ctx.query subscription_type field with
      | Except.error es => Except.error (SubscriptionError.GraphQLError es)
      | Except.ok argument_values =>
        resolve_field_stream collab ctx subscription_type field argument_values

/-- execute_subscription, the public entry point: compile the query,
build the setup execution context (deadline none, block
BLOCK_NUMBER_MAX), reject non-subscription operations, create the
source event stream and map it to the response stream.  The semaphore
parameter is the ambient state of the global
SUBSCRIPTION_QUERY_SEMAPHORE. -/
def execute_subscription {α : Type} (collab : Collab α) (subscription : Subscription)
    (options : SubscriptionExecutionOptions) (sem : SubscriptionSemaphore) :
    Except SubscriptionError (List (QueryResult α) × SubscriptionSemaphore) :=
  match collab.query_new subscription.query options.max_complexity options.max_depth with
  | Except.error e => Except.error e
  | Except.ok query =>
    let ctx : ExecutionContext :=
      { logger := options.logger
        resolver := options.resolver
        query := query
        fields := []
        deadline := none
        max_first := options.max_first
        block := BLOCK_NUMBER_MAX
        mode := ExecutionMode.Prefetch }
    if !query.isSubscription then
      Except.error (SubscriptionError.ofError
        (QueryExecutionError.NotSupported "Only subscriptions are supported"))
    else
      match create_source_event_stream collab ctx with
      | Except.error e => Except.error e
      | Except.ok source_stream =>
        Except.ok (map_source_to_response_stream collab ctx source_stream options.timeout sem)

/-- The per-item handler of the .then combinator, as a function of the
position in the combined stream: an error signal yields the
EventStreamError result, an event yields the first component of
execute_subscription_event.  (That first component does not read the
semaphore state, so the sem argument is inessential.) -/
def event_result {α : Type} (collab : Collab α) (resolver : Resolver) (query : Query)
    (timeout : Option Nat) (max_first : Nat) (sem : SubscriptionSemaphore)
    (step : Nat) : Except Unit StoreEvent → QueryResult α
  | Except.error () => QueryResult.ofError QueryExecutionError.EventStreamError
  | Except.ok event =>
    (execute_subscription_event collab step resolver query event timeout max_first sem).1

/-! ## Structural lemmas about the response stream -/

theorem execute_subscription_event_sem {α : Type} (collab : Collab α) (step : Nat)
    (resolver : Resolver) (query : Query) (event : StoreEvent) (timeout : Option Nat)
    (max_first : Nat) (sem : SubscriptionSemaphore) :
    (execute_subscription_event collab step resolver query event timeout max_first sem).2
      = sem := rfl

theorem execute_subscription_event_fst_sem_indep {α : Type} (collab : Collab α)
    (step : Nat) (resolver : Resolver) (query : Query) (event : StoreEvent)
    (timeout : Option Nat) (max_first : Nat) (sem sem' : SubscriptionSemaphore) :
    (execute_subscription_event collab step resolver query event timeout max_first sem).1
      = (execute_subscription_event collab step resolver query event timeout max_first sem').1 :=
  rfl

theorem map_events_sem {α : Type} (collab : Collab α) (resolver : Resolver) (query : Query)
    (timeout : Option Nat) (max_first : Nat) :
    ∀ (items : SourceStream) (step : Nat) (sem : SubscriptionSemaphore),
      (map_events collab resolver query timeout max_first step sem items).2 = sem
  | [], _, _ => rfl
  | Except.error () :: rest, step, sem =>
    map_events_sem collab resolver query timeout max_first rest (step + 1) sem
  | Except.ok _ :: rest, step, sem =>
    map_events_sem collab resolver query timeout max_first rest (step + 1) sem

theorem map_events_length {α : Type} (collab : Collab α) (resolver : Resolver)
    (query : Query) (timeout : Option Nat) (max_first : Nat) :
    ∀ (items : SourceStream) (step : Nat) (sem : SubscriptionSemaphore),
      (map_events collab resolver query timeout max_first step sem items).1.length
        = items.length
  | [], _, _ => rfl
  | Except.error () :: rest, step, sem => by
    simpa [map_events] using
      map_events_length collab resolver query timeout max_first rest (step + 1) sem
  | Except.ok event :: rest, step, sem => by
    simpa [map_events] using
      map_events_length collab resolver query timeout max_first rest (step + 1) _

theorem map_events_get? {α : Type} (collab : Collab α) (resolver : Resolver)
    (query : Query) (timeout : Option Nat) (max_first : Nat) :
    ∀ (items : SourceStream) (step : Nat) (sem : SubscriptionSemaphore) (j : Nat),
      (map_events collab resolver query timeout max_first step sem items).1.get? j
        = (items.get? j).map
            (event_result collab resolver query timeout max_first sem (step + j))
  | [], _, _, j => by simp [map_events]
  | Except.error () :: rest, step, sem, 0 => by
    simp [map_events, event_result]
  | Except.error () :: rest, step, sem, j + 1 => by
    have ih := map_events_get? collab resolver query timeout max_first rest (step + 1) sem j
    simp only [map_events, List.get?_cons_succ, ih]
    have : step + 1 + j = step + (j + 1) := by omega
    rw [this]
  | Except.ok event :: rest, step, sem, 0 => by
    simp [map_events, event_result]
  | Except.ok event :: rest, step, sem, j + 1 => by
    have ih := map_events_get? collab resolver query timeout max_first rest (step + 1) sem j
    simp only [map_events, List.get?_cons_succ, execute_subscription_event_sem, ih]
    have h : step + 1 + j = step + (j + 1) := by omega
    rw [h]

/-- The three structural facts about map_source_to_response_stream at
once: the semaphore state is returned unchanged, the output has one
result per combined-stream item, and the result at position j is the
per-item handler applied to item j of the trigger-prepended stream. -/
theorem map_source_spec {α : Type} (collab : Collab α) (ctx : ExecutionContext)
    (source_stream : SourceStream) (timeout : Option Nat) (sem : SubscriptionSemaphore) :
    (map_source_to_response_stream collab ctx source_stream timeout sem).2 = sem ∧
    (map_source_to_response_stream collab ctx source_stream timeout sem).1.length
      = source_stream.length + 1 ∧
    ∀ j : Nat,
      (map_source_to_response_stream collab ctx source_stream timeout sem).1.get? j
        = ((Except.ok trigger_event :: source_stream).get? j).map
            (event_result collab ctx.resolver ctx.query timeout ctx.max_first sem j) := by
  refine ⟨map_events_sem _ _ _ _ _ _ 0 sem, ?_, ?_⟩
  · have h := map_events_length collab ctx.resolver ctx.query timeout ctx.max_first
      (Except.ok trigger_event :: source_stream) 0 sem
    simpa [map_source_to_response_stream] using h
  · intro j
    have h := map_events_get? collab ctx.resolver ctx.query timeout ctx.max_first
      (Except.ok trigger_event :: source_stream) 0 sem j
    simpa [map_source_to_response_stream] using h

/-! ## Concrete exemplar inputs used by witnesses and counterexamples -/

def queryEx : Query :=
  { schema := { document := "schemaDoc" }, selection_set := "sel", isSubscription := true }

def resolverEx : Resolver :=
  { resolve_field_stream := fun _ _ _ => Except.ok [] }

def collabEx : Collab Nat :=
  { query_new := fun _ _ _ => Except.ok queryEx
    get_root_subscription_type := fun _ => some "Subscription"
    collect_fields := fun _ _ _ => [("things", ["things"])]
    coerce_argument_values := fun _ _ _ => Except.ok []
    execute_selection_set := fun step _ _ _ => ExecOutcome.ok (100 + step)
    now := fun step => 10 * step }

def ctxEx : ExecutionContext :=
  { logger := (), resolver := resolverEx, query := queryEx, fields := [],
    deadline := none, max_first := 100, block := BLOCK_NUMBER_MAX,
    mode := ExecutionMode.Prefetch }

def semEx : SubscriptionSemaphore := { permits := 7 }

def optsEx : SubscriptionExecutionOptions :=
  { logger := (), resolver := resolverEx, timeout := none, max_complexity := none,
    max_depth := 255, max_first := 100 }

def subEx : Subscription := { query := "subscription doc" }

/-! ## Claim theorems -/

/-- C2 (code_bug evidence).  The source binds the future returned by the
async Semaphore::acquire to _permit without awaiting it, so no permit is
ever acquired, held or released: the semaphore state threaded through
execute_subscription_event is returned unchanged for every input, and a
concrete event executes to a normal data result even when the semaphore
has zero available permits — impossible if one permit were acquired and
held for the duration of the execution as the claim states. -/
theorem semaphore_permit_never_acquired :
    (∀ (α : Type) (collab : Collab α) (step : Nat) (resolver : Resolver) (query : Query)
        (event : StoreEvent) (timeout : Option Nat) (max_first : Nat)
        (sem : SubscriptionSemaphore),
      (execute_subscription_event collab step resolver query event timeout max_first sem).2
        = sem) ∧
    execute_subscription_event collabEx 1 resolverEx queryEx { tag := 1, changes := [] }
        none 100 { permits := 0 }
      = (QueryResult.ofData 101, { permits := 0 }) :=
  ⟨fun _ _ _ _ _ _ _ _ _ => rfl, rfl⟩

/-- C4.  The admission semaphore is sized as the ceiling of 0.7 times
the store connection pool size: the Nat embedding equals the exact
rational ceiling for every pool size, the default pool size 10 yields
exactly 7 permits, and the binary64 product 0.7f64 * 10.0 (whose exact
value is 7 - 2^-51, a round-to-nearest tie on the grid of spacing 2^-50)
rounds to exactly 7.0, so the embedded Nat ceiling matches the source's
floating-point computation at the example the spec gives. -/
theorem subscription_semaphore_capacity_ceil :
    subscription_query_semaphore_permits 10 = 7 ∧
    (subscription_query_semaphore 10).permits = 7 ∧
    (∀ n : ℕ, (subscription_query_semaphore_permits n : ℤ) = ⌈(0.7 : ℚ) * (n : ℚ)⌉) ∧
    f64_0_7 * 10 = 7 - 1 / 2 ^ 51 ∧
    roundGrid (1 / 2 ^ 50) (f64_0_7 * 10) = 7 := by
  refine ⟨rfl, rfl, fun n => ?_, by norm_num [f64_0_7], ?_⟩
  · have h07 : (0.7 : ℚ) = 7 / 10 := by norm_num
    rw [h07, eq_comm, Int.ceil_eq_iff]
    constructor
    · have h2 : 10 * subscription_query_semaphore_permits n ≤ 7 * n + 9 := by
        unfold subscription_query_semaphore_permits; omega
      have hq : (10 : ℚ) * (subscription_query_semaphore_permits n : ℚ)
          ≤ 7 * (n : ℚ) + 9 := by exact_mod_cast h2
      push_cast
      linarith
    · have h1 : 7 * n ≤ 10 * subscription_query_semaphore_permits n := by
        unfold subscription_query_semaphore_permits; omega
      have hq : (7 : ℚ) * (n : ℚ)
          ≤ 10 * (subscription_query_semaphore_permits n : ℚ) := by exact_mod_cast h1
      push_cast
      linarith
  · have hfl : ⌊f64_0_7 * 10 / (1 / 2 ^ 50 : ℚ)⌋ = 7881299347898367 := by
      rw [Int.floor_eq_iff]
      constructor
      · norm_num [f64_0_7]
      · norm_num [f64_0_7]
    unfold roundGrid
    rw [hfl]
    norm_num [f64_0_7]

/-- C10.  resolve_field_stream receives the coerced argument values but
discards them: the result is identical for any two argument-value maps,
and equals exactly the resolver capability applied to the schema
document, the root object type and the field (with the error mapped
through the SubscriptionError conversion). -/
theorem argument_values_discarded_by_resolve_field_stream
    (α : Type) (collab : Collab α) (ctx : ExecutionContext) (object_type : ObjectType)
    (field : GqlField) (args₁ args₂ : ArgumentValues) :
    resolve_field_stream collab ctx object_type field args₁
      = resolve_field_stream collab ctx object_type field args₂ ∧
    resolve_field_stream collab ctx object_type field args₁
      = (match ctx.resolver.resolve_field_stream ctx.query.schema.document object_type field with
         | Except.ok s => Except.ok s
         | Except.error e => Except.error (SubscriptionError.ofError e)) :=
  ⟨rfl, rfl⟩

def eventsEx : List StoreEvent := [{ tag := 1, changes := [] }, { tag := 2, changes := [] }]

def sourceErrEx : SourceStream :=
  [Except.error (), Except.ok { tag := 5, changes := ["entity1"] }]

/-- Collaborator record that differs from a given one only in the
execution outcome at one position of the combined stream; used to state
that perturbing one event's execution leaves every other result
untouched. -/
def override_exec {α : Type} (collab : Collab α) (k : Nat)
    (f : ExecutionContext → SelectionSet → ObjectType → ExecOutcome α) : Collab α :=
  { collab with
    execute_selection_set := fun step ctx ss ot =>
      if step = k then f ctx ss ot else collab.execute_selection_set step ctx ss ot }

/-- C5.  The engine prepends exactly one synthetic StoreEvent with tag 0
and an empty change set; the response stream has exactly N+1 results for
N real events, the first result is the execution triggered by the
synthetic event at position 0, and the result at position i+1 is the
execution triggered by real event i, in arrival order. -/
theorem synthetic_trigger_prepended_and_one_result_per_event
    (α : Type) (collab : Collab α) (ctx : ExecutionContext) (events : List StoreEvent)
    (timeout : Option Nat) (sem : SubscriptionSemaphore) :
    trigger_event = { tag := 0, changes := [] } ∧
    (map_source_to_response_stream collab ctx (events.map Except.ok) timeout sem).1.length
      = events.length + 1 ∧
    (map_source_to_response_stream collab ctx (events.map Except.ok) timeout sem).1.get? 0
      = some (execute_subscription_event collab 0 ctx.resolver ctx.query trigger_event
          timeout ctx.max_first sem).1 ∧
    ∀ (i : Nat) (ev : StoreEvent), events.get? i = some ev →
      (map_source_to_response_stream collab ctx (events.map Except.ok) timeout
          sem).1.get? (i + 1)
        = some (execute_subscription_event collab (i + 1) ctx.resolver ctx.query ev
            timeout ctx.max_first sem).1 := by
  obtain ⟨-, hlen, hget⟩ := map_source_spec collab ctx (events.map Except.ok) timeout sem
  refine ⟨rfl, by simpa using hlen, ?_, ?_⟩
  · have h0 := hget 0
    simpa [event_result] using h0
  · intro i ev hi
    have h := hget (i + 1)
    rw [List.get?_cons_succ, List.get?_map, hi] at h
    simpa [event_result] using h

/-- Witness for C5 at a concrete two-event stream. -/
theorem synthetic_trigger_witness :
    eventsEx.get? 0 = some { tag := 1, changes := [] } ∧
    (map_source_to_response_stream collabEx ctxEx (eventsEx.map Except.ok) none
        semEx).1.length = 3 ∧
    (map_source_to_response_stream collabEx ctxEx (eventsEx.map Except.ok) none
        semEx).1.get? 1
      = some (execute_subscription_event collabEx 1 ctxEx.resolver ctxEx.query
          { tag := 1, changes := [] } none ctxEx.max_first semEx).1 :=
  ⟨rfl,
   (synthetic_trigger_prepended_and_one_result_per_event Nat collabEx ctxEx eventsEx none
      semEx).2.1,
   (synthetic_trigger_prepended_and_one_result_per_event Nat collabEx ctxEx eventsEx none
      semEx).2.2.2 0 { tag := 1, changes := [] } rfl⟩

/-- C1 counterexample.  With a source that emits an error signal and then
a further event, the engine emits the mapped EventStreamError result at
the error's position and then a normal executed QueryResult for the next
event: the output stream does not terminate at the error, contradicting
the claim that no further QueryResults are emitted. -/
theorem event_stream_error_then_more_results :
    (map_source_to_response_stream collabEx ctxEx sourceErrEx none semEx).1
      = [QueryResult.ofData 100,
         QueryResult.ofError QueryExecutionError.EventStreamError,
         QueryResult.ofData 102] := rfl

/-- C1 as amended.  An error signal from the store stream at position i
is mapped to a QueryResult carrying EventStreamError and emitted at the
corresponding output position; the stream is not terminated — the output
still contains one QueryResult per combined-stream item (trigger plus
every source item, events after the error included). -/
theorem event_stream_error_mapped_and_stream_continues
    (α : Type) (collab : Collab α) (ctx : ExecutionContext) (source : SourceStream)
    (timeout : Option Nat) (sem : SubscriptionSemaphore) (i : Nat)
    (hi : source.get? i = some (Except.error ())) :
    (map_source_to_response_stream collab ctx source timeout sem).1.get? (i + 1)
      = some (QueryResult.ofError QueryExecutionError.EventStreamError) ∧
    (map_source_to_response_stream collab ctx source timeout sem).1.length
      = source.length + 1 := by
  obtain ⟨-, hlen, hget⟩ := map_source_spec collab ctx source timeout sem
  refine ⟨?_, hlen⟩
  have h := hget (i + 1)
  rw [List.get?_cons_succ, hi] at h
  simpa [event_result] using h

/-- Witness for the amended C1 at a concrete erroring source. -/
theorem event_stream_error_mapped_witness :
    sourceErrEx.get? 0 = some (Except.error ()) ∧
    (map_source_to_response_stream collabEx ctxEx sourceErrEx none semEx).1.get? 1
      = some (QueryResult.ofError QueryExecutionError.EventStreamError) :=
  ⟨rfl,
   (event_stream_error_mapped_and_stream_continues Nat collabEx ctxEx sourceErrEx none semEx
      0 rfl).1⟩

/-- C6.  If the execution of the event at position k of the combined
stream panics with message msg, the result at position k is a
QueryResult carrying the single error Panic(msg); the stream does not
terminate (same length) and the result at every other position is
exactly what it would have been without the panic. -/
theorem panic_contained_to_single_event
    (α : Type) (collab : Collab α) (ctx : ExecutionContext) (source : SourceStream)
    (timeout : Option Nat) (sem : SubscriptionSemaphore) (k : Nat) (msg : String)
    (ev : StoreEvent)
    (hk : (Except.ok trigger_event :: source).get? k = some (Except.ok ev)) :
    (map_source_to_response_stream
        (override_exec collab k (fun _ _ _ => ExecOutcome.panicked msg)) ctx source timeout
        sem).1.get? k
      = some (QueryResult.ofErrors [QueryExecutionError.Panic msg]) ∧
    (map_source_to_response_stream
        (override_exec collab k (fun _ _ _ => ExecOutcome.panicked msg)) ctx source timeout
        sem).1.length
      = (map_source_to_response_stream collab ctx source timeout sem).1.length ∧
    ∀ j : Nat, j ≠ k →
      (map_source_to_response_stream
          (override_exec collab k (fun _ _ _ => ExecOutcome.panicked msg)) ctx source timeout
          sem).1.get? j
        = (map_source_to_response_stream collab ctx source timeout sem).1.get? j := by
  obtain ⟨-, hlen', hget'⟩ := map_source_spec
    (override_exec collab k (fun _ _ _ => ExecOutcome.panicked msg)) ctx source timeout sem
  obtain ⟨-, hlen, hget⟩ := map_source_spec collab ctx source timeout sem
  refine ⟨?_, by rw [hlen', hlen], ?_⟩
  · have h := hget' k
    rw [hk] at h
    rw [h]
    simp [event_result, execute_subscription_event, override_exec, joinBlockingResult]
  · intro j hjk
    rw [hget' j, hget j]
    have he : ∀ x : Except Unit StoreEvent,
        event_result (override_exec collab k (fun _ _ _ => ExecOutcome.panicked msg))
          ctx.resolver ctx.query timeout ctx.max_first sem j x
          = event_result collab ctx.resolver ctx.query timeout ctx.max_first sem j x := by
      intro x
      cases x with
      | error u => cases u; rfl
      | ok e =>
        simp [event_result, execute_subscription_event, override_exec, hjk]
    cases ((Except.ok trigger_event :: source).get? j) with
    | none => rfl
    | some x => simp [he x]

/-- Witness for C6: panicking the execution of real event 1 (combined
position 1) yields a single Panic error there and leaves position 2
unchanged. -/
theorem panic_contained_witness :
    ((Except.ok trigger_event :: eventsEx.map Except.ok : SourceStream)).get? 1
      = some (Except.ok { tag := 1, changes := [] }) ∧
    (map_source_to_response_stream
        (override_exec collabEx 1 (fun _ _ _ => ExecOutcome.panicked "boom")) ctxEx
        (eventsEx.map Except.ok) none semEx).1.get? 1
      = some (QueryResult.ofErrors [QueryExecutionError.Panic "boom"]) ∧
    (map_source_to_response_stream
        (override_exec collabEx 1 (fun _ _ _ => ExecOutcome.panicked "boom")) ctxEx
        (eventsEx.map Except.ok) none semEx).1.get? 2
      = (map_source_to_response_stream collabEx ctxEx (eventsEx.map Except.ok) none
          semEx).1.get? 2 :=
  ⟨rfl,
   (panic_contained_to_single_event Nat collabEx ctxEx (eventsEx.map Except.ok) none semEx 1
      "boom" { tag := 1, changes := [] } rfl).1,
   (panic_contained_to_single_event Nat collabEx ctxEx (eventsEx.map Except.ok) none semEx 1
      "boom" { tag := 1, changes := [] } rfl).2.2 2 (by decide)⟩

def collabBadCoerce : Collab Nat :=
  { collabEx with
    coerce_argument_values := fun _ _ _ =>
      Except.error [QueryExecutionError.Other "bad argument"] }

def collabEmpty : Collab Nat :=
  { collabEx with collect_fields := fun _ _ _ => [] }

def collabTwo : Collab Nat :=
  { collabEx with collect_fields := fun _ _ _ => [("a", ["a"]), ("b", ["b"])] }

def queryNotSubEx : Query := { queryEx with isSubscription := false }

def collabNotSub : Collab Nat :=
  { collabEx with query_new := fun _ _ _ => Except.ok queryNotSubEx }

/-- C3 counterexample.  For a concrete subscription whose single
top-level field fails argument coercion, execute_subscription returns a
setup-time SubscriptionError wrapping the coercion errors, in place of
the stream: no stream (and hence no per-event QueryResult carrying the
failure) is produced, contradicting the claim that the failure is
reported as a per-event execution error in a QueryResult. -/
theorem coercion_failure_returns_subscription_error :
    execute_subscription collabBadCoerce subEx optsEx semEx
      = Except.error
          (SubscriptionError.GraphQLError [QueryExecutionError.Other "bad argument"]) := rfl

/-- C3 as amended.  Argument coercion of the single top-level field
happens once, at stream setup, inside create_source_event_stream; its
failure propagates as a SubscriptionError wrapping the coercion errors
and is returned in place of the stream. -/
theorem coercion_failure_is_setup_time_error
    (α : Type) (collab : Collab α) (ctx : ExecutionContext) (st : ObjectType)
    (nm : Name) (f : GqlField) (fs : List GqlField) (es : List QueryExecutionError)
    (hroot : collab.get_root_subscription_type ctx.query.schema.document = some st)
    (hfields : collab.collect_fields ctx.query st ctx.query.selection_set = [(nm, f :: fs)])
    (hcoerce : collab.coerce_argument_values ctx.query st f = Except.error es) :
    create_source_event_stream collab ctx
      = Except.error (SubscriptionError.GraphQLError es) := by
  simp [create_source_event_stream, hroot, hfields, hcoerce]

/-- Witness for the amended C3 at a concrete failing coercion. -/
theorem coercion_failure_setup_witness :
    collabBadCoerce.get_root_subscription_type ctxEx.query.schema.document
      = some "Subscription" ∧
    collabBadCoerce.collect_fields ctxEx.query "Subscription" ctxEx.query.selection_set
      = [("things", ["things"])] ∧
    collabBadCoerce.coerce_argument_values ctxEx.query "Subscription" "things"
      = Except.error [QueryExecutionError.Other "bad argument"] ∧
    create_source_event_stream collabBadCoerce ctxEx
      = Except.error
          (SubscriptionError.GraphQLError [QueryExecutionError.Other "bad argument"]) :=
  ⟨rfl, rfl, rfl,
   coercion_failure_is_setup_time_error Nat collabBadCoerce ctxEx "Subscription" "things"
     "things" [] [QueryExecutionError.Other "bad argument"] rfl rfl rfl⟩

/-- C7.  Once the query compiles to a subscription operation and the
root subscription type exists: an empty grouped top-level field set
makes execute_subscription fail with EmptyQuery, and a grouped set with
more than one entry makes it fail with MultipleSubscriptionFields; in
both cases the result is the same for every resolver capability, which
formalises that the failure happens before any call to the resolver's
event-source capability. -/
theorem empty_and_multiple_field_validation
    (α : Type) (collab : Collab α) (subscription : Subscription)
    (options : SubscriptionExecutionOptions) (sem : SubscriptionSemaphore)
    (q : Query) (st : ObjectType)
    (hq : collab.query_new subscription.query options.max_complexity options.max_depth
      = Except.ok q)
    (hsub : q.isSubscription = true)
    (hroot : collab.get_root_subscription_type q.schema.document = some st) :
    (collab.collect_fields q st q.selection_set = [] →
      execute_subscription collab subscription options sem
        = Except.error (SubscriptionError.ofError QueryExecutionError.EmptyQuery) ∧
      ∀ r : Resolver,
        execute_subscription collab subscription { options with resolver := r } sem
          = Except.error (SubscriptionError.ofError QueryExecutionError.EmptyQuery)) ∧
    (1 < (collab.collect_fields q st q.selection_set).length →
      execute_subscription collab subscription options sem
        = Except.error
            (SubscriptionError.ofError QueryExecutionError.MultipleSubscriptionFields) ∧
      ∀ r : Resolver,
        execute_subscription collab subscription { options with resolver := r } sem
          = Except.error
              (SubscriptionError.ofError QueryExecutionError.MultipleSubscriptionFields)) := by
  constructor
  · intro h
    constructor
    · simp [execute_subscription, hq, hsub, create_source_event_stream, hroot, h]
    · intro r
      simp [execute_subscription, hq, hsub, create_source_event_stream, hroot, h]
  · intro h2
    have hne : (collab.collect_fields q st q.selection_set).isEmpty = false := by
      cases hcf : collab.collect_fields q st q.selection_set with
      | nil => rw [hcf] at h2; simp at h2
      | cons a l => simp
    constructor
    · simp [execute_subscription, hq, hsub, create_source_event_stream, hroot, hne, h2]
    · intro r
      simp [execute_subscription, hq, hsub, create_source_event_stream, hroot, hne, h2]

/-- Witness for C7: a concrete empty field set fails with EmptyQuery and
a concrete two-entry field set fails with MultipleSubscriptionFields. -/
theorem empty_and_multiple_field_witness :
    collabEmpty.query_new subEx.query optsEx.max_complexity optsEx.max_depth
      = Except.ok queryEx ∧
    queryEx.isSubscription = true ∧
    collabEmpty.collect_fields queryEx "Subscription" queryEx.selection_set = [] ∧
    execute_subscription collabEmpty subEx optsEx semEx
      = Except.error (SubscriptionError.ofError QueryExecutionError.EmptyQuery) ∧
    1 < (collabTwo.collect_fields queryEx "Subscription" queryEx.selection_set).length ∧
    execute_subscription collabTwo subEx optsEx semEx
      = Except.error
          (SubscriptionError.ofError QueryExecutionError.MultipleSubscriptionFields) :=
  ⟨rfl, rfl, rfl,
   ((empty_and_multiple_field_validation Nat collabEmpty subEx optsEx semEx queryEx
      "Subscription" rfl rfl rfl).1 rfl).1,
   by decide,
   ((empty_and_multiple_field_validation Nat collabTwo subEx optsEx semEx queryEx
      "Subscription" rfl rfl rfl).2 (by decide)).1⟩

/-- C8.  The per-event execution context is fresh: its deadline is
now + timeout when a timeout is configured and none otherwise, its
block ceiling is BLOCK_NUMBER_MAX, execute_subscription_event is exactly
the execution of the selection set against that freshly built context,
and two events executed at different instants get different deadlines —
the deadline is recomputed from the clock at each event, not once per
subscription. -/
theorem fresh_context_deadline_per_event
    (α : Type) (collab : Collab α) (resolver : Resolver) (query : Query)
    (max_first : Nat) :
    (∀ step t : Nat,
      (subscription_event_context (collab.now step) resolver query (some t)
        max_first).deadline = some (collab.now step + t)) ∧
    (∀ step : Nat,
      (subscription_event_context (collab.now step) resolver query none
        max_first).deadline = none) ∧
    (∀ (now : Nat) (timeout : Option Nat),
      (subscription_event_context now resolver query timeout max_first).block
        = BLOCK_NUMBER_MAX) ∧
    (∀ (step : Nat) (event : StoreEvent) (timeout : Option Nat)
        (sem : SubscriptionSemaphore),
      execute_subscription_event collab step resolver query event timeout max_first sem
        = ((match joinBlockingResult (collab.execute_selection_set step
              (subscription_event_context (collab.now step) resolver query timeout max_first)
              query.selection_set
              ((collab.get_root_subscription_type query.schema.document).get!)) with
            | Except.ok value => QueryResult.ofData value
            | Except.error e => QueryResult.ofErrors e), sem)) ∧
    (∀ (i j t : Nat), collab.now i ≠ collab.now j →
      (subscription_event_context (collab.now i) resolver query (some t)
          max_first).deadline
        ≠ (subscription_event_context (collab.now j) resolver query (some t)
            max_first).deadline) := by
  refine ⟨fun step t => rfl, fun step => rfl, fun now timeout => rfl,
    fun step event timeout sem => rfl, fun i j t hij => ?_⟩
  simp [subscription_event_context]
  omega

/-- Witness for C8: with the exemplar clock, the trigger (instant 0) and
the first real event (instant 10) get distinct deadlines. -/
theorem fresh_context_deadline_witness :
    collabEx.now 0 ≠ collabEx.now 1 ∧
    (subscription_event_context (collabEx.now 0) resolverEx queryEx (some 5) 100).deadline
      ≠ (subscription_event_context (collabEx.now 1) resolverEx queryEx (some 5)
          100).deadline :=
  ⟨by decide,
   (fresh_context_deadline_per_event Nat collabEx resolverEx queryEx 100).2.2.2.2 0 1 5
     (by decide)⟩

/-- C9.  A document that compiles successfully but is not a subscription
operation makes execute_subscription return the NotSupported
SubscriptionError instead of a stream; the result is the same for every
resolver capability, which formalises that no event source is resolved
and no stream is returned. -/
theorem non_subscription_rejected_before_source
    (α : Type) (collab : Collab α) (subscription : Subscription)
    (options : SubscriptionExecutionOptions) (sem : SubscriptionSemaphore) (q : Query)
    (hq : collab.query_new subscription.query options.max_complexity options.max_depth
      = Except.ok q)
    (hns : q.isSubscription = false) :
    execute_subscription collab subscription options sem
      = Except.error (SubscriptionError.ofError
          (QueryExecutionError.NotSupported "Only subscriptions are supported")) ∧
    ∀ r : Resolver,
      execute_subscription collab subscription { options with resolver := r } sem
        = Except.error (SubscriptionError.ofError
            (QueryExecutionError.NotSupported "Only subscriptions are supported")) := by
  constructor
  · simp [execute_subscription, hq, hns]
  · intro r
    simp [execute_subscription, hq, hns]

/-- Witness for C9 at a concrete non-subscription compiled query. -/
theorem non_subscription_rejected_witness :
    collabNotSub.query_new subEx.query optsEx.max_complexity optsEx.max_depth
      = Except.ok queryNotSubEx ∧
    queryNotSubEx.isSubscription = false ∧
    execute_subscription collabNotSub subEx optsEx semEx
      = Except.error (SubscriptionError.ofError
          (QueryExecutionError.NotSupported "Only subscriptions are supported")) :=
  ⟨rfl, rfl,
   (non_subscription_rejected_before_source Nat collabNotSub subEx optsEx semEx
      queryNotSubEx rfl rfl).1⟩

end GraphQL
